import Mathlib

/-!
Shallow embedding of the ClusterForge scheduling core (Task, Node, Cluster)
and a verification of its specification claims.

Doubles of the C++ source are modelled as rationals (ℚ), C++ `int` as ℤ.
Mutation through `shared_ptr` is rendered by explicit state passing; where a
shared `Task` object is mutated while also stored inside a `Node`, the stored
copy is updated by task id (ids are the handles the source itself uses to
find tasks inside a node).
-/

set_option maxHeartbeats 1000000

namespace ClusterForge

/-- Task lifecycle states, from Task.h. -/
inductive TaskStatus
  | PENDING
  | RUNNING
  | COMPLETED
  | FAILED
  | CANCELLED
deriving DecidableEq, Repr

/-- Node health states, from Node.h. -/
inductive NodeStatus
  | ONLINE
  | OFFLINE
  | DEGRADED
  | FAILED
deriving DecidableEq, Repr

/-- Resource requirements of a task, from Task.h (`struct TaskRequirements`). -/
structure TaskRequirements where
  cpu_cores : ℤ
  memory_gb : ℚ
  disk_gb : ℚ
  network_mbps : ℚ
  estimated_duration_ms : ℤ
deriving DecidableEq, Repr

/-- A typed dependency edge stored inside a task, from Task.h. -/
structure TaskDependency where
  task_id : ℤ
  dependency_type : String
deriving DecidableEq, Repr

/-- The task entity, from Task.h/Task.cpp.  Wall-clock timestamps and
callbacks are omitted: no verified claim observes them. -/
structure Task where
  task_id : ℤ
  name : String
  status : TaskStatus
  requirements : TaskRequirements
  dependencies : List TaskDependency
  dependent_tasks : List ℤ
  assigned_node_id : ℤ
deriving DecidableEq, Repr

/-- Task constructor (Task.cpp lines 8-12): PENDING, unassigned (-1). -/
def Task.mkTask (id : ℤ) (nm : String) (reqs : TaskRequirements) : Task :=
  { task_id := id, name := nm, status := TaskStatus.PENDING, requirements := reqs,
    dependencies := [], dependent_tasks := [], assigned_node_id := -1 }

/-- `Task::setStatus` (Task.cpp lines 14-36): unconditional overwrite; the
only other effects are timestamp stamping and a callback, both omitted. -/
def Task.setStatus (t : Task) (s : TaskStatus) : Task :=
  { t with status := s }

/-- `Task::start` (Task.cpp lines 38-49). -/
def Task.start (t : Task) : Bool × Task :=
  if t.status ≠ TaskStatus.PENDING then (false, t)
  else if t.assigned_node_id = -1 then (false, t)
  else (true, t.setStatus TaskStatus.RUNNING)

/-- `Task::complete` (Task.cpp lines 51-58). -/
def Task.complete (t : Task) : Bool × Task :=
  if t.status ≠ TaskStatus.RUNNING then (false, t)
  else (true, t.setStatus TaskStatus.COMPLETED)

/-- `Task::fail` (Task.cpp lines 60-67); the error-message argument is unused. -/
def Task.fail (t : Task) : Bool × Task :=
  if t.status = TaskStatus.COMPLETED ∨ t.status = TaskStatus.CANCELLED then (false, t)
  else (true, t.setStatus TaskStatus.FAILED)

/-- `Task::cancel` (Task.cpp lines 69-76). -/
def Task.cancel (t : Task) : Bool × Task :=
  if t.status = TaskStatus.COMPLETED ∨ t.status = TaskStatus.FAILED then (false, t)
  else (true, t.setStatus TaskStatus.CANCELLED)

/-- `Task::assignToNode` (Task.cpp lines 78-82). -/
def Task.assignToNode (t : Task) (node_id : ℤ) : Task :=
  { t with assigned_node_id := node_id }

/-- `Task::unassignFromNode` (Task.cpp lines 84-88). -/
def Task.unassignFromNode (t : Task) : Task :=
  { t with assigned_node_id := -1 }

/-- `Task::addDependency` (Task.cpp lines 90-100): append only when no entry
with the same task id is present. -/
def Task.addDependency (t : Task) (id : ℤ) (ty : String) : Task :=
  if t.dependencies.any (fun d => d.task_id == id) then t
  else { t with dependencies := t.dependencies ++ [⟨id, ty⟩] }

/-- `Task::removeDependency` (Task.cpp lines 102-110): erase-remove of every
entry with the given task id. -/
def Task.removeDependency (t : Task) (id : ℤ) : Task :=
  { t with dependencies := t.dependencies.filter (fun d => ¬ d.task_id == id) }

/-- `Task::areDependenciesMet` (Task.cpp lines 112-120). -/
def Task.areDependenciesMet (t : Task) (completed_tasks : List ℤ) : Bool :=
  t.dependencies.all (fun d => completed_tasks.contains d.task_id)

/-- Node configuration, from Node.h (`struct NodeConfig`). -/
structure NodeConfig where
  node_id : ℤ
  hostname : String
  max_cpu_cores : ℤ
  max_memory_gb : ℚ
  max_disk_gb : ℚ
  max_network_mbps : ℚ
deriving DecidableEq, Repr

/-- Live usage metrics, from Node.h (`struct ResourceMetrics`); the timestamp
is omitted. -/
structure ResourceMetrics where
  cpu_usage : ℚ
  memory_usage : ℚ
  disk_io : ℚ
  network_io : ℚ
deriving DecidableEq, Repr

/-- The node entity, from Node.h/Node.cpp.  The heartbeat clock comparison in
`isHealthy` (`time_since_heartbeat < FAILOVER_TIMEOUT`) is modelled as an
abstract boolean `heartbeat_fresh`; the historical-metrics ring buffer,
failure probability and callbacks are omitted. -/
structure Node where
  config : NodeConfig
  status : NodeStatus
  current_metrics : ResourceMetrics
  running_tasks : List Task
  heartbeat_fresh : Bool
deriving DecidableEq, Repr

/-- Node constructor (Node.cpp lines 9-19): ONLINE with zeroed metrics. -/
def Node.fresh (cfg : NodeConfig) : Node :=
  { config := cfg, status := NodeStatus.ONLINE,
    current_metrics := ⟨0, 0, 0, 0⟩, running_tasks := [], heartbeat_fresh := true }

/-- `Node::canAcceptTask` (Node.cpp lines 33-58). -/
def Node.canAcceptTask (n : Node) (task : Task) : Bool :=
  if n.status ≠ NodeStatus.ONLINE then false
  else
    let reqs := task.requirements
    if (reqs.cpu_cores : ℚ) > (n.config.max_cpu_cores : ℚ) * (1 - n.current_metrics.cpu_usage)
    then false
    else if reqs.memory_gb > n.config.max_memory_gb * (1 - n.current_metrics.memory_usage)
    then false
    else if reqs.disk_gb > n.config.max_disk_gb * (1 / 10) then false
    else true

/-- `Node::addTask` (Node.cpp lines 60-77): on acceptance, store the task
(after it is assigned to this node through the shared pointer), then add
`requirement / capacity` to the usage fractions, clamping at 1.0. -/
def Node.addTask (n : Node) (task : Task) : Bool × Node :=
  if ¬ n.canAcceptTask task then (false, n)
  else
    let stored := task.assignToNode n.config.node_id
    let reqs := task.requirements
    let cpu1 := n.current_metrics.cpu_usage + (reqs.cpu_cores : ℚ) / (n.config.max_cpu_cores : ℚ)
    let mem1 := n.current_metrics.memory_usage + reqs.memory_gb / n.config.max_memory_gb
    (true,
      { n with
        running_tasks := n.running_tasks ++ [stored],
        current_metrics :=
          { n.current_metrics with
            cpu_usage := min cpu1 1, memory_usage := min mem1 1 } })

/-- `Node::removeTask` (Node.cpp lines 79-101): find the first held task with
the given id; subtract its `requirement / capacity` from the usage fractions,
clamping at 0.0; unassign it (mutation of the shared task, invisible in the
node's own state) and erase it from the list. -/
def Node.removeTask (n : Node) (task_id : ℤ) : Bool × Node :=
  match n.running_tasks.find? (fun t => t.task_id == task_id) with
  | none => (false, n)
  | some t =>
    let reqs := t.requirements
    let cpu1 := n.current_metrics.cpu_usage - (reqs.cpu_cores : ℚ) / (n.config.max_cpu_cores : ℚ)
    let mem1 := n.current_metrics.memory_usage - reqs.memory_gb / n.config.max_memory_gb
    (true,
      { n with
        running_tasks := n.running_tasks.eraseP (fun t => t.task_id == task_id),
        current_metrics :=
          { n.current_metrics with
            cpu_usage := max cpu1 0, memory_usage := max mem1 0 } })

/-- Fixed health thresholds from ClusterForge.h. -/
def CPU_THRESHOLD : ℚ := 8 / 10

/-- Fixed memory health threshold from ClusterForge.h. -/
def MEMORY_THRESHOLD : ℚ := 85 / 100

/-- `Node::isHealthy` (Node.cpp lines 124-133). -/
def Node.isHealthy (n : Node) : Bool :=
  n.status == NodeStatus.ONLINE && n.heartbeat_fresh
    && decide (n.current_metrics.cpu_usage < CPU_THRESHOLD)
    && decide (n.current_metrics.memory_usage < MEMORY_THRESHOLD)

/-- Cluster configuration, from Cluster.h (`struct ClusterConfig`);
only the fields the verified operations read. -/
structure ClusterConfig where
  cluster_id : ℤ
  name : String
  max_nodes : ℕ
deriving DecidableEq, Repr

/-- The cluster, from Cluster.h/Cluster.cpp.  The node vector `nodes_` is the
state; the id-indexed `node_map_` is derived from it (`getNode` searches by
id, equivalent for the unique ids `addNode` maintains).  Scheduler, monitor,
thread pool and logger components are omitted. -/
structure Cluster where
  config : ClusterConfig
  nodes : List Node
deriving DecidableEq, Repr

/-- A cluster with no nodes yet (constructor, Cluster.cpp lines 11-14). -/
def Cluster.empty (cfg : ClusterConfig) : Cluster :=
  { config := cfg, nodes := [] }

/-- `Cluster::getNode` (Cluster.cpp lines 226-229): lookup by node id. -/
def Cluster.getNode (c : Cluster) (node_id : ℤ) : Option Node :=
  c.nodes.find? (fun n => n.config.node_id == node_id)

/-- `Cluster::addNode` (Cluster.cpp lines 231-241). -/
def Cluster.addNode (c : Cluster) (node_config : NodeConfig) : Bool × Cluster :=
  if c.nodes.length ≥ c.config.max_nodes then (false, c)
  else (true, { c with nodes := c.nodes ++ [Node.fresh node_config] })

/-- The throwaway probe task `Task(0, "", requirements)` that
`Cluster::findBestNode` feeds to `canAcceptTask` (Cluster.cpp line 102). -/
def probeTask (requirements : TaskRequirements) : Task :=
  Task.mkTask 0 "" requirements

/-- The load-balance score `1 - (cpu_usage + memory_usage) / 2` computed per
node in `Cluster::findBestNode` (Cluster.cpp line 104). -/
def Node.lbScore (n : Node) : ℚ :=
  1 - (n.current_metrics.cpu_usage + n.current_metrics.memory_usage) / 2

/-- One loop iteration of `Cluster::findBestNode` (Cluster.cpp lines 100-110):
skip unhealthy nodes, skip infeasible nodes, keep the strictly best score. -/
def Cluster.findBestNodeStep (requirements : TaskRequirements) (acc : ℤ × ℚ) (n : Node) :
    ℤ × ℚ :=
  if ¬ n.isHealthy then acc
  else if n.canAcceptTask (probeTask requirements) then
    if n.lbScore > acc.2 then (n.config.node_id, n.lbScore) else acc
  else acc

/-- `Cluster::findBestNode` (Cluster.cpp lines 97-112): fold over the node
vector starting from `(best_node_id, best_score) = (-1, -1.0)`. -/
def Cluster.findBestNode (c : Cluster) (requirements : TaskRequirements) : ℤ :=
  (c.nodes.foldl (Cluster.findBestNodeStep requirements) (-1, -1)).1

/-- `Cluster::executeTask` (Cluster.cpp lines 51-58): sets the shared task
RUNNING and then immediately COMPLETED (the sleep is disabled in the source). -/
def Cluster.executeTask (task : Task) : Task :=
  (task.setStatus TaskStatus.RUNNING).setStatus TaskStatus.COMPLETED

/-- `Cluster::submitTask` (Cluster.cpp lines 60-85), single-threaded
(`NO_BOOST`) path: pick the best node, hand the shared task to it, then run
`executeTask` on that same shared task.  The status mutation performed by
`executeTask` on the shared object is mirrored, by task id, onto the copy the
chosen node stores.  Returns (success, cluster afterwards, the caller's view
of the shared task afterwards). -/
def Cluster.submitTask (c : Cluster) (task : Task) : Bool × Cluster × Task :=
  let best := c.findBestNode task.requirements
  if best = -1 then (false, c, task)
  else
    match c.getNode best with
    | none => (false, c, task)
    | some node =>
      let r := node.addTask task
      if ¬ r.1 then (false, c, task)
      else
        let shared1 := task.assignToNode best
        let shared2 := Cluster.executeTask shared1
        let node2 :=
          { r.2 with
            running_tasks := r.2.running_tasks.map
              (fun t => if t.task_id == task.task_id then { t with status := shared2.status } else t) }
        (true,
          { c with nodes := c.nodes.map (fun n => if n.config.node_id == best then node2 else n) },
          shared2)

/-- A candidate in `Cluster::findBestNode`: healthy and able to accept the
probe task (Cluster.cpp lines 101-102). -/
def Cluster.isCandidate (requirements : TaskRequirements) (n : Node) : Bool :=
  n.isHealthy && n.canAcceptTask (probeTask requirements)

/-- DAG edge payload, from DAGScheduler.h (`struct DAGEdge`). -/
structure DAGEdge where
  dependency_type : String
  data_size_gb : ℚ
  transfer_time_ms : ℚ
  memory_overlap : ℚ
deriving DecidableEq, Repr

/-- Modelled from the spec: the graph state of `DAGAnalyzer` (declared in
DAGScheduler.h lines 72-116; its implementation file is not in the source
tree).  Vertices are task ids; an edge `(a, b, e)` is the dependency edge
`a → b` carrying its `DAGEdge` payload. -/
structure DAGAnalyzer where
  vertices : List ℤ
  edges : List (ℤ × ℤ × DAGEdge)
deriving DecidableEq, Repr

/-- The directed edge pairs of the graph, payloads dropped. -/
def DAGAnalyzer.edgePairs (g : DAGAnalyzer) : List (ℤ × ℤ) :=
  g.edges.map (fun e => (e.1, e.2.1))

/-- One expansion step of a reachable set over directed edge pairs. -/
def reachStep (es : List (ℤ × ℤ)) (s : List ℤ) : List ℤ :=
  s ++ es.filterMap (fun e => if e.1 ∈ s ∧ e.2 ∉ s then some e.2 else none)

/-- All vertices reachable from `src` (any shortest path uses each edge at
most once, so `es.length + 1` expansion rounds reach the fixpoint). -/
def reachSet (es : List (ℤ × ℤ)) (src : ℤ) : List ℤ :=
  (reachStep es)^[es.length + 1] [src]

/-- Reachability of `tgt` from `src` over directed edge pairs. -/
def reachableB (es : List (ℤ × ℤ)) (src tgt : ℤ) : Bool :=
  (reachSet es src).contains tgt

/-- Error conditions of the scheduling core (spec §7 taxonomy). -/
inductive SchedError
  | CycleRejected
deriving DecidableEq, Repr

/-- Modelled from the spec: `DAGAnalyzer::addDependency` (spec §4.3; the
implementation is not in the source tree): run a reachability check from `to`
back to `from`; if adding `from → to` would close a cycle, fail with
`CycleRejected` and leave the graph untouched, otherwise commit the edge. -/
def DAGAnalyzer.addDependency (g : DAGAnalyzer) (fromTask toTask : ℤ) (e : DAGEdge) :
    Option SchedError × DAGAnalyzer :=
  if reachableB g.edgePairs toTask fromTask then (some SchedError.CycleRejected, g)
  else (none, { g with edges := g.edges ++ [(fromTask, toTask, e)] })

/-- Modelled from the spec: `networkHeadroom(n)` of §4.4 (no implementation
in the source tree); the node's remaining network fraction. -/
def specNetworkHeadroom (n : Node) : ℚ :=
  1 - n.current_metrics.network_io / n.config.max_network_mbps

/-- Modelled from the spec: the §4.4 `overallScore` with the default weights
0.4 / 0.4 / 0.2 and the overlap penalty taken as zero (a plain submission has
no DAG context to induce overlap). -/
def specOverallScore (n : Node) : ℚ :=
  (4 / 10) * (1 - n.current_metrics.memory_usage)
    + (4 / 10) * (1 - n.current_metrics.cpu_usage)
    + (2 / 10) * specNetworkHeadroom n

/-- Whether a task status is terminal (spec §4.2). -/
def TaskStatus.isTerminal : TaskStatus → Bool
  | TaskStatus.COMPLETED => true
  | TaskStatus.FAILED => true
  | TaskStatus.CANCELLED => true
  | _ => false

/-- Total cpu-core requirement over a list of held tasks. -/
def sumCpu (l : List Task) : ℤ :=
  (l.map (fun t => t.requirements.cpu_cores)).sum

/-- Total memory requirement over a list of held tasks. -/
def sumMem (l : List Task) : ℚ :=
  (l.map (fun t => t.requirements.memory_gb)).sum

/-- One mutation of a node through its resource-management interface. -/
inductive NodeOp
  | add (t : Task)
  | remove (task_id : ℤ)
deriving DecidableEq, Repr

/-- Apply one `NodeOp`, keeping the node whether or not the call succeeds. -/
def Node.applyOp (n : Node) : NodeOp → Node
  | NodeOp.add t => (n.addTask t).2
  | NodeOp.remove id => (n.removeTask id).2

/-- Apply a whole sequence of node mutations. -/
def Node.applyOps (n : Node) (ops : List NodeOp) : Node :=
  ops.foldl Node.applyOp n

/-- A node operation whose added task (if any) has nonnegative cpu and memory
requirements. -/
def NodeOp.nonneg : NodeOp → Bool
  | NodeOp.add t =>
      decide (0 ≤ t.requirements.cpu_cores) && decide (0 ≤ t.requirements.memory_gb)
  | NodeOp.remove _ => true

/-- The ledger/usage invariant carried through node-mutation sequences:
the usage fractions are exactly `sum of held requirements / capacity`, they
lie in [0,1], and every held task has nonnegative requirements. -/
def NodeInv (n : Node) : Prop :=
  n.current_metrics.cpu_usage * (n.config.max_cpu_cores : ℚ) = (sumCpu n.running_tasks : ℚ) ∧
  n.current_metrics.memory_usage * n.config.max_memory_gb = sumMem n.running_tasks ∧
  0 ≤ n.current_metrics.cpu_usage ∧ n.current_metrics.cpu_usage ≤ 1 ∧
  0 ≤ n.current_metrics.memory_usage ∧ n.current_metrics.memory_usage ≤ 1 ∧
  ∀ t ∈ n.running_tasks, 0 ≤ t.requirements.cpu_cores ∧ 0 ≤ t.requirements.memory_gb

/-- The dependency-id list of a task. -/
def Task.depIds (t : Task) : List ℤ :=
  t.dependencies.map (fun d => d.task_id)

/-- One mutation of a task's dependency list. -/
inductive DepOp
  | add (id : ℤ) (ty : String)
  | remove (id : ℤ)
deriving DecidableEq, Repr

/-- Apply one dependency-list mutation. -/
def Task.applyDepOp (t : Task) : DepOp → Task
  | DepOp.add id ty => t.addDependency id ty
  | DepOp.remove id => t.removeDependency id

/-- Apply a sequence of dependency-list mutations. -/
def Task.applyDepOps (t : Task) (ops : List DepOp) : Task :=
  ops.foldl Task.applyDepOp t

/-! Concrete values used by witnesses and counterexamples. -/

/-- A 16-core / 32 GB / 100 GB / 100 Mbps node configuration, id 1. -/
def exCfg : NodeConfig :=
  { node_id := 1, hostname := "node-1", max_cpu_cores := 16,
    max_memory_gb := 32, max_disk_gb := 100, max_network_mbps := 100 }

/-- A second node configuration, id 2, same capacities. -/
def exCfg2 : NodeConfig :=
  { node_id := 2, hostname := "node-2", max_cpu_cores := 16,
    max_memory_gb := 32, max_disk_gb := 100, max_network_mbps := 100 }

/-- A small requirement vector: 1 core, 1 GB memory, 1 GB disk, 10 Mbps. -/
def exReqs : TaskRequirements :=
  { cpu_cores := 1, memory_gb := 1, disk_gb := 1, network_mbps := 10,
    estimated_duration_ms := 1000 }

/-- A freshly constructed task with the small requirement vector. -/
def exTask : Task := Task.mkTask 1 "t1" exReqs

/-- A cluster configuration admitting up to 100 nodes. -/
def exClusterCfg : ClusterConfig :=
  { cluster_id := 1, name := "demo", max_nodes := 100 }

/-- A reachable one-node cluster: empty cluster plus one registered node. -/
def exCluster : Cluster :=
  ((Cluster.empty exClusterCfg).addNode exCfg).2

/-- A fresh node taken OFFLINE by the operator. -/
def exOffNode : Node :=
  { Node.fresh exCfg with status := NodeStatus.OFFLINE }

/-- A COMPLETED task. -/
def exDoneTask : Task :=
  { exTask with status := TaskStatus.COMPLETED }

/-- A RUNNING task. -/
def exRunTask : Task :=
  { exTask with status := TaskStatus.RUNNING }

/-- A task asking for a negative number of cpu cores. -/
def exNegTask : Task :=
  Task.mkTask 2 "neg"
    { cpu_cores := -5, memory_gb := 1, disk_gb := 1, network_mbps := 10,
      estimated_duration_ms := 1000 }

/-- Node 1 at cpu = mem = 0.5 with full network headroom. -/
def exNodeA : Node :=
  { Node.fresh exCfg with current_metrics := ⟨1 / 2, 1 / 2, 0, 0⟩ }

/-- Node 2 at cpu = mem = 0.4 with zero network headroom. -/
def exNodeB : Node :=
  { Node.fresh exCfg2 with current_metrics := ⟨2 / 5, 2 / 5, 0, 100⟩ }

/-- A two-node cluster hosting `exNodeA` and `exNodeB`. -/
def exCluster2 : Cluster :=
  { config := exClusterCfg, nodes := [exNodeA, exNodeB] }

/-- A dependency-edge payload. -/
def exDagEdge : DAGEdge :=
  { dependency_type := "data", data_size_gb := 1, transfer_time_ms := 5, memory_overlap := 0 }

/-- A two-vertex graph already holding the edge 2 → 3. -/
def exDag : DAGAnalyzer :=
  { vertices := [2, 3], edges := [(2, 3, exDagEdge)] }

/-- A task that already depends on task 7. -/
def exDepTask : Task :=
  { exTask with dependencies := [⟨7, "data"⟩] }

/-- The 16-core configuration with node id 5. -/
def exCfg5 : NodeConfig :=
  { exCfg with node_id := 5, hostname := "node-5" }

/-- The 16-core configuration with node id 3. -/
def exCfg3 : NodeConfig :=
  { exCfg with node_id := 3, hostname := "node-3" }

/-- A cluster registering node 5 before node 3, both fresh (equal scores). -/
def exClusterTie : Cluster :=
  { config := exClusterCfg, nodes := [Node.fresh exCfg5, Node.fresh exCfg3] }

/-! Theorems.  Helper lemmas come first; the per-claim theorems, witnesses
and counterexamples follow. -/

/-- Helper: the exact acceptance condition of `Node::canAcceptTask`. -/
theorem canAccept_iff (n : Node) (t : Task) :
    n.canAcceptTask t = true ↔
      n.status = NodeStatus.ONLINE ∧
      (t.requirements.cpu_cores : ℚ) ≤
        (n.config.max_cpu_cores : ℚ) * (1 - n.current_metrics.cpu_usage) ∧
      t.requirements.memory_gb ≤
        n.config.max_memory_gb * (1 - n.current_metrics.memory_usage) ∧
      t.requirements.disk_gb ≤ n.config.max_disk_gb * (1 / 10) := by
  simp only [Node.canAcceptTask]
  split_ifs with h1 h2 h3 h4
  · simp only [Bool.false_eq_true, false_iff]
    rintro ⟨h, -, -, -⟩
    exact h1 h
  · simp only [Bool.false_eq_true, false_iff]
    rintro ⟨-, h, -, -⟩
    exact absurd h2 (not_lt.mpr h)
  · simp only [Bool.false_eq_true, false_iff]
    rintro ⟨-, -, h, -⟩
    exact absurd h3 (not_lt.mpr h)
  · simp only [Bool.false_eq_true, false_iff]
    rintro ⟨-, -, -, h⟩
    exact absurd h4 (not_lt.mpr h)
  · simp only [true_iff]
    exact ⟨not_not.mp h1, not_lt.mp h2, not_lt.mp h3, not_lt.mp h4⟩

/-- C2 counterexample: an OFFLINE node whose capacities satisfy all three of
the claim's admission formulas still rejects the task, so the stated iff
(which never mentions the node's status) is false. -/
theorem c2_counterexample_offline_node :
    exOffNode.canAcceptTask exTask = false ∧
    (exTask.requirements.cpu_cores : ℚ) ≤
      (exOffNode.config.max_cpu_cores : ℚ) * (1 - exOffNode.current_metrics.cpu_usage) ∧
    exTask.requirements.memory_gb ≤
      exOffNode.config.max_memory_gb * (1 - exOffNode.current_metrics.memory_usage) ∧
    exTask.requirements.disk_gb ≤ exOffNode.config.max_disk_gb * (1 / 10) := by
  refine ⟨rfl, ?_, ?_, ?_⟩ <;>
    norm_num [exOffNode, exTask, exReqs, exCfg, Node.fresh, Task.mkTask]

/-- C2 (amended): `Node::canAcceptTask` accepts iff the node is ONLINE and
`capacity.cpu * (1 - usage.cpu) ≥ r.cpu`, `capacity.memory * (1 -
usage.memory) ≥ r.memory`, and `r.disk ≤ capacity.disk * 0.10`; the network
requirement never influences the check. -/
theorem c2_canAcceptTask_characterization (n : Node) (t : Task) :
    (n.canAcceptTask t = true ↔
      n.status = NodeStatus.ONLINE ∧
      (t.requirements.cpu_cores : ℚ) ≤
        (n.config.max_cpu_cores : ℚ) * (1 - n.current_metrics.cpu_usage) ∧
      t.requirements.memory_gb ≤
        n.config.max_memory_gb * (1 - n.current_metrics.memory_usage) ∧
      t.requirements.disk_gb ≤ n.config.max_disk_gb * (1 / 10)) ∧
    ∀ q : ℚ,
      n.canAcceptTask { t with requirements := { t.requirements with network_mbps := q } } =
        n.canAcceptTask t :=
  ⟨canAccept_iff n t, fun _ => rfl⟩

/-- C2 witness: the characterization applied to a fresh ONLINE node, whose
acceptance of the small task follows from the three formulas. -/
theorem c2_witness : (Node.fresh exCfg).canAcceptTask exTask = true :=
  (c2_canAcceptTask_characterization (Node.fresh exCfg) exTask).1.mpr
    ⟨rfl, by norm_num [Node.fresh, exCfg, exTask, exReqs, Task.mkTask],
      by norm_num [Node.fresh, exCfg, exTask, exReqs, Task.mkTask],
      by norm_num [Node.fresh, exCfg, exTask, exReqs, Task.mkTask]⟩

/-- C4: `Task::areDependenciesMet(C)` returns true iff every dependency
task-id of the task is a member of the completed-id list `C`. -/
theorem c4_ready_iff_all_dependencies_completed (t : Task) (completed : List ℤ) :
    t.areDependenciesMet completed = true ↔
      ∀ d ∈ t.dependencies, d.task_id ∈ completed := by
  simp [Task.areDependenciesMet, List.all_eq_true]

/-- C4 witness: a task depending on task 7 is ready exactly against a
completed list containing 7. -/
theorem c4_witness : exDepTask.areDependenciesMet [7] = true :=
  (c4_ready_iff_all_dependencies_completed exDepTask [7]).mpr (by decide)

/-- C5 counterexample: `Task::setStatus` performs no validation, so a
status-transition attempt on a COMPLETED task is not rejected: it overwrites
the terminal status with RUNNING. -/
theorem c5_counterexample_setStatus_overwrites_terminal :
    exDoneTask.status = TaskStatus.COMPLETED ∧
    (exDoneTask.setStatus TaskStatus.RUNNING).status = TaskStatus.RUNNING := by
  decide

/-- C5 (amended): on a task in a terminal status, `start` and `complete` are
rejected and leave the task unchanged; `fail` is rejected unless the status
is already FAILED and `cancel` is rejected unless it is already CANCELLED
(those two re-applications report success); none of the four guarded
operations changes the terminal status.  `setStatus` itself is unguarded. -/
theorem c5_terminal_guarded_transitions (t : Task) (h : t.status.isTerminal = true) :
    (t.start.1 = false ∧ t.start.2 = t) ∧
    (t.complete.1 = false ∧ t.complete.2 = t) ∧
    (t.fail.1 = (t.status == TaskStatus.FAILED) ∧ t.fail.2.status = t.status) ∧
    (t.cancel.1 = (t.status == TaskStatus.CANCELLED) ∧ t.cancel.2.status = t.status) := by
  obtain ⟨id, nm, st, rq, dp, dt, an⟩ := t
  cases st <;>
    simp_all [TaskStatus.isTerminal, Task.start, Task.complete, Task.fail, Task.cancel,
      Task.setStatus]

/-- C5 witness: the terminal-status behavior evaluated on a concrete
COMPLETED task. -/
theorem c5_witness : exDoneTask.cancel.2.status = exDoneTask.status :=
  (c5_terminal_guarded_transitions exDoneTask (by decide)).2.2.2.2

/-- C6 counterexample: a RUNNING task is cancelled successfully, so
"cancel succeeds iff the status is PENDING" is false and RUNNING → CANCELLED
is in fact allowed. -/
theorem c6_counterexample_running_cancelled :
    exRunTask.status = TaskStatus.RUNNING ∧
    exRunTask.cancel.1 = true ∧
    exRunTask.cancel.2.status = TaskStatus.CANCELLED := by
  decide

/-- C6 (amended): `Task::cancel` succeeds iff the status is neither COMPLETED
nor FAILED (so PENDING, RUNNING and already-CANCELLED tasks are all accepted);
on success the status becomes CANCELLED, on rejection the task is unchanged. -/
theorem c6_cancel_characterization (t : Task) :
    (t.cancel.1 = true ↔ t.status ≠ TaskStatus.COMPLETED ∧ t.status ≠ TaskStatus.FAILED) ∧
    (t.cancel.1 = true → t.cancel.2.status = TaskStatus.CANCELLED) ∧
    (t.cancel.1 = false → t.cancel.2 = t) := by
  obtain ⟨id, nm, st, rq, dp, dt, an⟩ := t
  cases st <;> simp [Task.cancel, Task.setStatus]

/-- C6 witness: the characterization evaluated on a concrete PENDING task. -/
theorem c6_witness : exTask.cancel.2.status = TaskStatus.CANCELLED :=
  (c6_cancel_characterization exTask).2.1 (by decide)

/-- C3 (spec-modelled, the `DAGAnalyzer` implementation is absent from the
source tree): an `addDependency(from, to, edge)` call for which `from` is
already reachable from `to` fails with `CycleRejected` and returns the graph
exactly as it was. -/
theorem c3_addDependency_cycle_rejected (g : DAGAnalyzer) (fromTask toTask : ℤ)
    (e : DAGEdge) (h : reachableB g.edgePairs toTask fromTask = true) :
    g.addDependency fromTask toTask e = (some SchedError.CycleRejected, g) := by
  simp [DAGAnalyzer.addDependency, h]

/-- C3 witness: adding 3 → 2 to a graph already holding 2 → 3 is rejected and
the graph is unchanged. -/
theorem c3_witness :
    exDag.addDependency 3 2 exDagEdge = (some SchedError.CycleRejected, exDag) :=
  c3_addDependency_cycle_rejected exDag 3 2 exDagEdge (by decide)

/-- C8: when `Cluster::findBestNode` finds no feasible node, `submitTask`
reports failure (no exception path exists) and changes nothing: the cluster
state, every node's usage counters, and the caller's task (hence its PENDING
status) are exactly as before. -/
theorem c8_submit_without_feasible_node_changes_nothing (c : Cluster) (t : Task)
    (h : c.findBestNode t.requirements = -1) :
    c.submitTask t = (false, c, t) := by
  simp [Cluster.submitTask, h]

/-- C8 witness: submitting to a cluster with no nodes. -/
theorem c8_witness :
    (Cluster.empty exClusterCfg).submitTask exTask =
      (false, Cluster.empty exClusterCfg, exTask) :=
  c8_submit_without_feasible_node_changes_nothing _ _ (by decide)

/-- Helper: adding a dependency whose id is already present is a no-op. -/
theorem addDependency_of_mem (t : Task) (i : ℤ) (ty : String) (h : i ∈ t.depIds) :
    t.addDependency i ty = t := by
  have ha : (t.dependencies.any fun d => d.task_id == i) = true := by
    simp only [Task.depIds, List.mem_map] at h
    obtain ⟨d, hd, hdi⟩ := h
    simp only [List.any_eq_true, beq_iff_eq]
    exact ⟨d, hd, hdi⟩
  simp [Task.addDependency, ha]

/-- Helper: one dependency-list mutation preserves distinctness of the ids. -/
theorem depIds_applyDepOp_nodup (t : Task) (op : DepOp) (h : t.depIds.Nodup) :
    (t.applyDepOp op).depIds.Nodup := by
  cases op with
  | add i ty =>
    by_cases hmem : (t.dependencies.any fun d => d.task_id == i) = true
    · simpa [Task.applyDepOp, Task.addDependency, hmem] using h
    · have hni : i ∉ t.depIds := by
        simp only [Task.depIds, List.mem_map]
        rintro ⟨d, hd, hdi⟩
        exact hmem (by simp only [List.any_eq_true, beq_iff_eq]; exact ⟨d, hd, hdi⟩)
      have : (t.applyDepOp (DepOp.add i ty)).depIds = t.depIds ++ [i] := by
        simp [Task.applyDepOp, Task.addDependency, hmem, Task.depIds]
      rw [this, List.nodup_append]
      refine ⟨h, List.nodup_singleton i, ?_⟩
      intro a ha hai
      rw [List.mem_singleton] at hai
      subst hai
      exact hni ha
  | remove i =>
    have hsub : (t.removeDependency i).depIds.Sublist t.depIds := by
      simp only [Task.depIds, Task.removeDependency]
      exact List.Sublist.map _ (List.filter_sublist _)
    exact h.sublist hsub

/-- C10: `Task::addDependency` is idempotent on an already-present task-id,
and any sequence of `addDependency` / `removeDependency` calls preserves
distinctness of the dependency task-ids (which a fresh task, whose list is
empty, enjoys). -/
theorem c10_addDependency_idempotent_and_nodup (t : Task) (i : ℤ) (ty : String)
    (ops : List DepOp) (hmem : i ∈ t.depIds) (hnd : t.depIds.Nodup) :
    t.addDependency i ty = t ∧ (t.applyDepOps ops).depIds.Nodup := by
  refine ⟨addDependency_of_mem t i ty hmem, ?_⟩
  clear hmem
  induction ops generalizing t with
  | nil => exact hnd
  | cons op rest ih => exact ih _ (depIds_applyDepOp_nodup t op hnd)

/-- C10 witness: re-adding dependency 7 is a no-op and a concrete mutation
sequence keeps the id list duplicate-free. -/
theorem c10_witness :
    exDepTask.addDependency 7 "data" = exDepTask ∧
    ((exDepTask.applyDepOps
      [DepOp.add 7 "compute", DepOp.add 8 "data", DepOp.remove 7]).depIds).Nodup :=
  c10_addDependency_idempotent_and_nodup exDepTask 7 "data"
    [DepOp.add 7 "compute", DepOp.add 8 "data", DepOp.remove 7] (by decide) (by decide)

/-- C9 counterexample: a reachable state (one registered node, one submitted
task) in which the task is COMPLETED — terminal, not RUNNING and not
transitioning into RUNNING — while its assigned-node reference is still node
1: the reference is not cleared when the task finishes. -/
theorem c9_counterexample_completed_task_keeps_assignment :
    (exCluster.submitTask exTask).1 = true ∧
    (exCluster.submitTask exTask).2.2.status = TaskStatus.COMPLETED ∧
    (exCluster.submitTask exTask).2.2.assigned_node_id = 1 := by
  norm_num [Cluster.submitTask, Cluster.findBestNode, Cluster.findBestNodeStep,
    Cluster.getNode, Cluster.executeTask, Node.isHealthy, Node.canAcceptTask, Node.lbScore,
    Node.addTask, probeTask, Task.mkTask, Task.assignToNode, Task.setStatus, exCluster,
    Cluster.empty, Cluster.addNode, exClusterCfg, exCfg, Node.fresh, CPU_THRESHOLD,
    MEMORY_THRESHOLD, exReqs, exTask]

/-- C9 (amended): the assigned-node reference is set when a node accepts the
task inside `submitTask` (while the task is still PENDING) and is not tied to
the RUNNING status: a successful `submitTask` ends with the task COMPLETED
and its reference still pointing at the chosen node; the reference is cleared
only by an explicit `Node::removeTask` release. -/
theorem c9_assignment_survives_completion (c : Cluster) (t : Task)
    (h : (c.submitTask t).1 = true) :
    (c.submitTask t).2.2.status = TaskStatus.COMPLETED ∧
    (c.submitTask t).2.2.assigned_node_id = c.findBestNode t.requirements ∧
    c.findBestNode t.requirements ≠ -1 := by
  by_cases hb : c.findBestNode t.requirements = -1
  · simp [Cluster.submitTask, hb] at h
  · rcases hg : c.getNode (c.findBestNode t.requirements) with - | node
    · simp [Cluster.submitTask, hb, hg] at h
    · by_cases ha : (node.addTask t).1 = true
      · refine ⟨?_, ?_, hb⟩ <;>
          simp [Cluster.submitTask, hb, hg, ha, Cluster.executeTask, Task.setStatus,
            Task.assignToNode]
      · simp [Cluster.submitTask, hb, hg, ha] at h

/-- C9 witness: the amended behavior on the concrete one-node cluster. -/
theorem c9_witness :
    (exCluster.submitTask exTask).2.2.status = TaskStatus.COMPLETED ∧
    (exCluster.submitTask exTask).2.2.assigned_node_id =
      exCluster.findBestNode exTask.requirements ∧
    exCluster.findBestNode exTask.requirements ≠ -1 :=
  c9_assignment_survives_completion exCluster exTask
    (by norm_num [Cluster.submitTask, Cluster.findBestNode, Cluster.findBestNodeStep,
      Cluster.getNode, Cluster.executeTask, Node.isHealthy, Node.canAcceptTask,
      Node.lbScore, Node.addTask, probeTask, Task.mkTask, Task.assignToNode,
      Task.setStatus, exCluster, Cluster.empty, Cluster.addNode, exClusterCfg, exCfg,
      Node.fresh, CPU_THRESHOLD, MEMORY_THRESHOLD, exReqs, exTask])

/-- Helper: cpu sum over a cons. -/
theorem sumCpu_cons (a : Task) (l : List Task) :
    sumCpu (a :: l) = a.requirements.cpu_cores + sumCpu l := by
  simp [sumCpu]

/-- Helper: memory sum over a cons. -/
theorem sumMem_cons (a : Task) (l : List Task) :
    sumMem (a :: l) = a.requirements.memory_gb + sumMem l := by
  simp [sumMem]

/-- Helper: cpu sum over an appended singleton. -/
theorem sumCpu_append (l : List Task) (t : Task) :
    sumCpu (l ++ [t]) = sumCpu l + t.requirements.cpu_cores := by
  simp [sumCpu]

/-- Helper: memory sum over an appended singleton. -/
theorem sumMem_append (l : List Task) (t : Task) :
    sumMem (l ++ [t]) = sumMem l + t.requirements.memory_gb := by
  simp [sumMem]

/-- Helper: a sum of nonnegative cpu requirements is nonnegative. -/
theorem sumCpu_nonneg (l : List Task) (h : ∀ t ∈ l, 0 ≤ t.requirements.cpu_cores) :
    0 ≤ sumCpu l := by
  induction l with
  | nil => simp [sumCpu]
  | cons a rest ih =>
    rw [sumCpu_cons]
    exact add_nonneg (h a (List.mem_cons_self a rest))
      (ih fun t ht => h t (List.mem_cons_of_mem a ht))

/-- Helper: a sum of nonnegative memory requirements is nonnegative. -/
theorem sumMem_nonneg (l : List Task) (h : ∀ t ∈ l, 0 ≤ t.requirements.memory_gb) :
    0 ≤ sumMem l := by
  induction l with
  | nil => simp [sumMem]
  | cons a rest ih =>
    rw [sumMem_cons]
    exact add_nonneg (h a (List.mem_cons_self a rest))
      (ih fun t ht => h t (List.mem_cons_of_mem a ht))

/-- Helper: when `find?` locates a task, erasing it removes exactly that
task's requirements from the sums, and yields a sublist. -/
theorem find_erase_sums (l : List Task) (id : ℤ) (t : Task)
    (h : l.find? (fun x => x.task_id == id) = some t) :
    t ∈ l ∧
    sumCpu (l.eraseP (fun x => x.task_id == id)) = sumCpu l - t.requirements.cpu_cores ∧
    sumMem (l.eraseP (fun x => x.task_id == id)) = sumMem l - t.requirements.memory_gb ∧
    (l.eraseP (fun x => x.task_id == id)).Sublist l := by
  induction l with
  | nil => simp at h
  | cons a rest ih =>
    by_cases ha : (a.task_id == id) = true
    · rw [show (a :: rest).find? (fun x => x.task_id == id) = some a from
        List.find?_cons_of_pos rest ha] at h
      have hat : a = t := by injection h
      subst hat
      rw [show (a :: rest).eraseP (fun x => x.task_id == id) = rest from
        List.eraseP_cons_of_pos ha]
      refine ⟨List.mem_cons_self _ _, ?_, ?_, List.sublist_cons_self a rest⟩
      · rw [sumCpu_cons]; ring
      · rw [sumMem_cons]; ring
    · rw [show (a :: rest).find? (fun x => x.task_id == id) =
          rest.find? (fun x => x.task_id == id) from
        List.find?_cons_of_neg rest ha] at h
      obtain ⟨hm, hce, hme, hs⟩ := ih h
      rw [show (a :: rest).eraseP (fun x => x.task_id == id) =
          a :: rest.eraseP (fun x => x.task_id == id) from
        List.eraseP_cons_of_neg ha]
      refine ⟨List.mem_cons_of_mem a hm, ?_, ?_, hs.cons₂ a⟩
      · rw [sumCpu_cons, sumCpu_cons, hce]; ring
      · rw [sumMem_cons, sumMem_cons, hme]; ring

/-- Helper: `addTask` never changes the node's configuration. -/
theorem addTask_config (n : Node) (t : Task) : (n.addTask t).2.config = n.config := by
  by_cases h : n.canAcceptTask t = true <;> simp [Node.addTask, h]

/-- Helper: `removeTask` never changes the node's configuration. -/
theorem removeTask_config (n : Node) (id : ℤ) : (n.removeTask id).2.config = n.config := by
  rcases h : n.running_tasks.find? (fun x => x.task_id == id) with - | t <;>
    simp [Node.removeTask, h]

/-- Helper: `addTask` preserves the ledger invariant when the added task's
requirements are nonnegative. -/
theorem nodeInv_addTask (n : Node) (t : Task)
    (hc : 0 < n.config.max_cpu_cores) (hm : 0 < n.config.max_memory_gb)
    (hinv : NodeInv n)
    (htc : 0 ≤ t.requirements.cpu_cores) (htm : 0 ≤ t.requirements.memory_gb) :
    NodeInv (n.addTask t).2 := by
  obtain ⟨ec, em, c0, c1, m0, m1, hall⟩ := hinv
  by_cases hacc : n.canAcceptTask t = true
  · obtain ⟨-, hcpu, hmem, -⟩ := (canAccept_iff n t).mp hacc
    have hccap : (0 : ℚ) < (n.config.max_cpu_cores : ℚ) := by exact_mod_cast hc
    have hrc : (0 : ℚ) ≤ (t.requirements.cpu_cores : ℚ) := by exact_mod_cast htc
    have hdivc : (t.requirements.cpu_cores : ℚ) / (n.config.max_cpu_cores : ℚ)
        ≤ 1 - n.current_metrics.cpu_usage := by
      rw [div_le_iff₀ hccap]
      linarith [hcpu]
    have hlec : n.current_metrics.cpu_usage +
        (t.requirements.cpu_cores : ℚ) / (n.config.max_cpu_cores : ℚ) ≤ 1 := by linarith
    have hgec : 0 ≤ n.current_metrics.cpu_usage +
        (t.requirements.cpu_cores : ℚ) / (n.config.max_cpu_cores : ℚ) :=
      add_nonneg c0 (div_nonneg hrc hccap.le)
    have hdivm : t.requirements.memory_gb / n.config.max_memory_gb
        ≤ 1 - n.current_metrics.memory_usage := by
      rw [div_le_iff₀ hm]
      linarith [hmem]
    have hlem : n.current_metrics.memory_usage +
        t.requirements.memory_gb / n.config.max_memory_gb ≤ 1 := by linarith
    have hgem : 0 ≤ n.current_metrics.memory_usage +
        t.requirements.memory_gb / n.config.max_memory_gb :=
      add_nonneg m0 (div_nonneg htm hm.le)
    simp only [Node.addTask, hacc, not_true_eq_false, if_false]
    refine ⟨?_, ?_, le_min hgec zero_le_one, min_le_right _ _,
      le_min hgem zero_le_one, min_le_right _ _, ?_⟩
    · rw [min_eq_left hlec, sumCpu_append, add_mul,
        div_mul_cancel₀ _ hccap.ne.symm, ec, Task.assignToNode]
      push_cast
      ring
    · rw [min_eq_left hlem, sumMem_append, add_mul,
        div_mul_cancel₀ _ hm.ne.symm, em, Task.assignToNode]
    · intro x hx
      rcases List.mem_append.mp hx with hx | hx
      · exact hall x hx
      · rw [List.mem_singleton] at hx
        subst hx
        exact ⟨htc, htm⟩
  · have heq : (n.addTask t).2 = n := by simp [Node.addTask, hacc]
    rw [heq]
    exact ⟨ec, em, c0, c1, m0, m1, hall⟩

/-- Helper: `removeTask` preserves the ledger invariant. -/
theorem nodeInv_removeTask (n : Node) (id : ℤ)
    (hc : 0 < n.config.max_cpu_cores) (hm : 0 < n.config.max_memory_gb)
    (hinv : NodeInv n) : NodeInv (n.removeTask id).2 := by
  obtain ⟨ec, em, c0, c1, m0, m1, hall⟩ := hinv
  rcases hf : n.running_tasks.find? (fun x => x.task_id == id) with - | t
  · have heq : (n.removeTask id).2 = n := by simp [Node.removeTask, hf]
    rw [heq]
    exact ⟨ec, em, c0, c1, m0, m1, hall⟩
  · obtain ⟨hmem, hce, hme, hsub⟩ := find_erase_sums _ id t hf
    have hccap : (0 : ℚ) < (n.config.max_cpu_cores : ℚ) := by exact_mod_cast hc
    have htc : 0 ≤ t.requirements.cpu_cores := (hall t hmem).1
    have htm : 0 ≤ t.requirements.memory_gb := (hall t hmem).2
    have hrc : (0 : ℚ) ≤ (t.requirements.cpu_cores : ℚ) := by exact_mod_cast htc
    have hallE : ∀ x ∈ n.running_tasks.eraseP (fun x => x.task_id == id),
        0 ≤ x.requirements.cpu_cores ∧ 0 ≤ x.requirements.memory_gb :=
      fun x hx => hall x (hsub.subset hx)
    have hsc : (0 : ℤ) ≤ sumCpu n.running_tasks - t.requirements.cpu_cores := by
      rw [← hce]
      exact sumCpu_nonneg _ fun x hx => (hallE x hx).1
    have hsm : (0 : ℚ) ≤ sumMem n.running_tasks - t.requirements.memory_gb := by
      rw [← hme]
      exact sumMem_nonneg _ fun x hx => (hallE x hx).2
    have hgec : 0 ≤ n.current_metrics.cpu_usage -
        (t.requirements.cpu_cores : ℚ) / (n.config.max_cpu_cores : ℚ) := by
      have hrcS : (t.requirements.cpu_cores : ℚ) ≤ (sumCpu n.running_tasks : ℚ) := by
        exact_mod_cast Int.le_of_sub_nonneg hsc
      have : (t.requirements.cpu_cores : ℚ) / (n.config.max_cpu_cores : ℚ)
          ≤ n.current_metrics.cpu_usage := by
        rw [div_le_iff₀ hccap]
        rw [ec]
        exact hrcS
      linarith
    have hgem : 0 ≤ n.current_metrics.memory_usage -
        t.requirements.memory_gb / n.config.max_memory_gb := by
      have : t.requirements.memory_gb / n.config.max_memory_gb
          ≤ n.current_metrics.memory_usage := by
        rw [div_le_iff₀ hm]
        rw [em]
        linarith [hsm]
      linarith
    have hlec : n.current_metrics.cpu_usage -
        (t.requirements.cpu_cores : ℚ) / (n.config.max_cpu_cores : ℚ) ≤ 1 := by
      have : 0 ≤ (t.requirements.cpu_cores : ℚ) / (n.config.max_cpu_cores : ℚ) :=
        div_nonneg hrc hccap.le
      linarith
    have htmQ : (0 : ℚ) ≤ t.requirements.memory_gb := htm
    have hlem : n.current_metrics.memory_usage -
        t.requirements.memory_gb / n.config.max_memory_gb ≤ 1 := by
      have : 0 ≤ t.requirements.memory_gb / n.config.max_memory_gb :=
        div_nonneg htmQ hm.le
      linarith
    simp only [Node.removeTask, hf]
    refine ⟨?_, ?_, le_max_right _ _, max_le hlec zero_le_one,
      le_max_right _ _, max_le hlem zero_le_one, hallE⟩
    · rw [max_eq_left hgec, sub_mul, div_mul_cancel₀ _ hccap.ne.symm, ec, hce]
      push_cast
      ring
    · rw [max_eq_left hgem, sub_mul, div_mul_cancel₀ _ hm.ne.symm, em, hme]

/-- Helper: a sequence of node mutations with nonnegative requirements
preserves the ledger invariant and the node configuration. -/
theorem nodeInv_applyOps (ops : List NodeOp) (n : Node)
    (hc : 0 < n.config.max_cpu_cores) (hm : 0 < n.config.max_memory_gb)
    (hinv : NodeInv n) (hops : ∀ op ∈ ops, op.nonneg = true) :
    NodeInv (n.applyOps ops) ∧ (n.applyOps ops).config = n.config := by
  induction ops generalizing n with
  | nil => exact ⟨hinv, rfl⟩
  | cons op rest ih =>
    have hop := hops op (List.mem_cons_self _ _)
    have hstep : NodeInv (n.applyOp op) := by
      cases op with
      | add t =>
        simp only [NodeOp.nonneg, Bool.and_eq_true, decide_eq_true_eq] at hop
        exact nodeInv_addTask n t hc hm hinv hop.1 hop.2
      | remove id => exact nodeInv_removeTask n id hc hm hinv
    have hcfg : (n.applyOp op).config = n.config := by
      cases op with
      | add t => exact addTask_config n t
      | remove id => exact removeTask_config n id
    have hrest := ih (n.applyOp op) (by rw [hcfg]; exact hc) (by rw [hcfg]; exact hm)
      hstep (fun o ho => hops o (List.mem_cons_of_mem _ ho))
    exact ⟨hrest.1, hrest.2.trans hcfg⟩

/-- C1 counterexample: `addTask` does not validate requirement signs, so a
single `addTask` of a task demanding −5 cpu cores on a fresh 16-core node is
accepted and drives the cpu usage fraction below 0 — outside [0,1]. -/
theorem c1_counterexample_negative_requirement :
    ((Node.fresh exCfg).addTask exNegTask).2.current_metrics.cpu_usage < 0 := by
  norm_num [Node.fresh, Node.addTask, Node.canAcceptTask, exCfg, exNegTask, Task.mkTask,
    Task.assignToNode]

/-- C1 (amended): from a fresh node with positive cpu and memory capacities,
under any sequence of `addTask` / `removeTask` calls whose added tasks have
nonnegative cpu and memory requirements, the usage fractions stay in [0,1]
and the summed cpu (resp. memory) requirements of the held tasks never
exceed the cpu (resp. memory) capacity. -/
theorem c1_usage_and_capacity_invariant (cfg : NodeConfig) (ops : List NodeOp)
    (hc : 0 < cfg.max_cpu_cores) (hm : 0 < cfg.max_memory_gb)
    (hops : ∀ op ∈ ops, op.nonneg = true) :
    0 ≤ ((Node.fresh cfg).applyOps ops).current_metrics.cpu_usage ∧
    ((Node.fresh cfg).applyOps ops).current_metrics.cpu_usage ≤ 1 ∧
    0 ≤ ((Node.fresh cfg).applyOps ops).current_metrics.memory_usage ∧
    ((Node.fresh cfg).applyOps ops).current_metrics.memory_usage ≤ 1 ∧
    (sumCpu ((Node.fresh cfg).applyOps ops).running_tasks : ℚ) ≤ (cfg.max_cpu_cores : ℚ) ∧
    sumMem ((Node.fresh cfg).applyOps ops).running_tasks ≤ cfg.max_memory_gb := by
  have hinv0 : NodeInv (Node.fresh cfg) := by
    refine ⟨?_, ?_, le_refl 0, zero_le_one, le_refl 0, zero_le_one, ?_⟩ <;>
      simp [Node.fresh, sumCpu, sumMem]
  obtain ⟨⟨ec, em, c0, c1, m0, m1, -⟩, hcfg⟩ :=
    nodeInv_applyOps ops (Node.fresh cfg) hc hm hinv0 hops
  have hcfg2 : ((Node.fresh cfg).applyOps ops).config = cfg := hcfg
  rw [hcfg2] at ec em
  have hcapQ : (0 : ℚ) ≤ (cfg.max_cpu_cores : ℚ) := by exact_mod_cast hc.le
  refine ⟨c0, c1, m0, m1, ?_, ?_⟩
  · calc (sumCpu ((Node.fresh cfg).applyOps ops).running_tasks : ℚ)
        = ((Node.fresh cfg).applyOps ops).current_metrics.cpu_usage
            * (cfg.max_cpu_cores : ℚ) := ec.symm
      _ ≤ 1 * (cfg.max_cpu_cores : ℚ) := mul_le_mul_of_nonneg_right c1 hcapQ
      _ = (cfg.max_cpu_cores : ℚ) := one_mul _
  · calc sumMem ((Node.fresh cfg).applyOps ops).running_tasks
        = ((Node.fresh cfg).applyOps ops).current_metrics.memory_usage
            * cfg.max_memory_gb := em.symm
      _ ≤ 1 * cfg.max_memory_gb := mul_le_mul_of_nonneg_right m1 hm.le
      _ = cfg.max_memory_gb := one_mul _

/-- C1 witness: the invariant evaluated on a concrete add/remove/add
sequence on the 16-core / 32 GB node. -/
theorem c1_witness :
    0 ≤ ((Node.fresh exCfg).applyOps
        [NodeOp.add exTask, NodeOp.remove 1, NodeOp.add exTask]).current_metrics.cpu_usage ∧
    ((Node.fresh exCfg).applyOps
        [NodeOp.add exTask, NodeOp.remove 1, NodeOp.add exTask]).current_metrics.cpu_usage ≤ 1 ∧
    0 ≤ ((Node.fresh exCfg).applyOps
        [NodeOp.add exTask, NodeOp.remove 1, NodeOp.add exTask]).current_metrics.memory_usage ∧
    ((Node.fresh exCfg).applyOps
        [NodeOp.add exTask, NodeOp.remove 1, NodeOp.add exTask]).current_metrics.memory_usage ≤ 1 ∧
    (sumCpu ((Node.fresh exCfg).applyOps
        [NodeOp.add exTask, NodeOp.remove 1, NodeOp.add exTask]).running_tasks : ℚ)
      ≤ (exCfg.max_cpu_cores : ℚ) ∧
    sumMem ((Node.fresh exCfg).applyOps
        [NodeOp.add exTask, NodeOp.remove 1, NodeOp.add exTask]).running_tasks
      ≤ exCfg.max_memory_gb :=
  c1_usage_and_capacity_invariant exCfg [NodeOp.add exTask, NodeOp.remove 1, NodeOp.add exTask]
    (by decide) (by norm_num [exCfg]) (by decide)

/-- Helper: on a candidate node, one `findBestNode` step keeps the better of
the incumbent and this node (strict improvement required). -/
theorem findBestNodeStep_of_candidate (reqs : TaskRequirements) (acc : ℤ × ℚ) (n : Node)
    (h : Cluster.isCandidate reqs n = true) :
    Cluster.findBestNodeStep reqs acc n =
      if acc.2 < n.lbScore then (n.config.node_id, n.lbScore) else acc := by
  simp only [Cluster.isCandidate, Bool.and_eq_true] at h
  simp [Cluster.findBestNodeStep, h.1, h.2, gt_iff_lt]

/-- Helper: a non-candidate node leaves the accumulator unchanged. -/
theorem findBestNodeStep_of_not_candidate (reqs : TaskRequirements) (acc : ℤ × ℚ)
    (n : Node) (h : Cluster.isCandidate reqs n = false) :
    Cluster.findBestNodeStep reqs acc n = acc := by
  by_cases h1 : n.isHealthy = true
  · have h2 : n.canAcceptTask (probeTask reqs) = false := by
      cases hc : n.canAcceptTask (probeTask reqs)
      · rfl
      · simp [Cluster.isCandidate, h1, hc] at h
    simp [Cluster.findBestNodeStep, h1, h2]
  · simp [Cluster.findBestNodeStep, h1]

/-- Helper: a healthy node's load-balance score is above the −1 sentinel the
`findBestNode` fold starts from. -/
theorem lbScore_gt_neg_one (n : Node) (h : n.isHealthy = true) : -1 < n.lbScore := by
  simp only [Node.isHealthy, Bool.and_eq_true, beq_iff_eq, decide_eq_true_eq,
    CPU_THRESHOLD, MEMORY_THRESHOLD] at h
  obtain ⟨⟨⟨-, -⟩, hcpu⟩, hmem⟩ := h
  simp only [Node.lbScore]
  linarith

/-- Helper: full characterization of the `findBestNode` fold: either no
candidate beats the accumulator and it is returned unchanged, or the result
is the first candidate whose score strictly exceeds both the accumulator and
every earlier candidate, and is not exceeded by any later candidate. -/
theorem findBestNode_foldl_spec (reqs : TaskRequirements) (l : List Node) (acc : ℤ × ℚ) :
    (l.foldl (Cluster.findBestNodeStep reqs) acc = acc ∧
      ∀ n ∈ l, Cluster.isCandidate reqs n = true → n.lbScore ≤ acc.2) ∨
    (∃ l₁ n l₂, l = l₁ ++ n :: l₂ ∧ Cluster.isCandidate reqs n = true ∧
      l.foldl (Cluster.findBestNodeStep reqs) acc = (n.config.node_id, n.lbScore) ∧
      acc.2 < n.lbScore ∧
      (∀ m ∈ l₁, Cluster.isCandidate reqs m = true → m.lbScore < n.lbScore) ∧
      (∀ m ∈ l₂, Cluster.isCandidate reqs m = true → m.lbScore ≤ n.lbScore)) := by
  induction l generalizing acc with
  | nil =>
    left
    exact ⟨rfl, by simp⟩
  | cons a rest ih =>
    rw [List.foldl_cons]
    by_cases hcand : Cluster.isCandidate reqs a = true
    · rw [findBestNodeStep_of_candidate reqs acc a hcand]
      by_cases hgt : acc.2 < a.lbScore
      · rw [if_pos hgt]
        rcases ih (a.config.node_id, a.lbScore) with ⟨heq, hall⟩ |
          ⟨l₁, n, l₂, hdec, hc, heq, hlt, h₁, h₂⟩
        · right
          exact ⟨[], a, rest, rfl, hcand, heq, hgt, by simp, fun m hm hcm => hall m hm hcm⟩
        · right
          refine ⟨a :: l₁, n, l₂, by rw [hdec, List.cons_append], hc, heq, lt_trans hgt hlt, ?_, h₂⟩
          intro m hm hcm
          rcases List.mem_cons.mp hm with rfl | hm
          · exact hlt
          · exact h₁ m hm hcm
      · rw [if_neg hgt]
        rcases ih acc with ⟨heq, hall⟩ | ⟨l₁, n, l₂, hdec, hc, heq, hlt, h₁, h₂⟩
        · left
          refine ⟨heq, ?_⟩
          intro m hm hcm
          rcases List.mem_cons.mp hm with rfl | hm
          · exact not_lt.mp hgt
          · exact hall m hm hcm
        · right
          refine ⟨a :: l₁, n, l₂, by rw [hdec, List.cons_append], hc, heq, hlt, ?_, h₂⟩
          intro m hm hcm
          rcases List.mem_cons.mp hm with rfl | hm
          · exact lt_of_le_of_lt (not_lt.mp hgt) hlt
          · exact h₁ m hm hcm
    · have hf : Cluster.isCandidate reqs a = false := by
        cases hx : Cluster.isCandidate reqs a
        · rfl
        · exact absurd hx hcand
      rw [findBestNodeStep_of_not_candidate reqs acc a hf]
      rcases ih acc with ⟨heq, hall⟩ | ⟨l₁, n, l₂, hdec, hc, heq, hlt, h₁, h₂⟩
      · left
        refine ⟨heq, ?_⟩
        intro m hm hcm
        rcases List.mem_cons.mp hm with rfl | hm
        · rw [hcm] at hf
          cases hf
        · exact hall m hm hcm
      · right
        refine ⟨a :: l₁, n, l₂, by rw [hdec, List.cons_append], hc, heq, hlt, ?_, h₂⟩
        intro m hm hcm
        rcases List.mem_cons.mp hm with rfl | hm
        · rw [hcm] at hf
          cases hf
        · exact h₁ m hm hcm

/-- C7 counterexample: two failures of the claim against
`Cluster::findBestNode`.  First, the code scores `1 − (cpu + mem)/2` and
ignores network entirely: in `exCluster2` it returns node 2 although node 1
is a candidate with a strictly higher 0.4/0.4/0.2 weighted `overallScore`.
Second, among equal-score candidates the earlier-registered node wins, not
the ascending node id: registering node 5 before an equal node 3 returns 5. -/
theorem c7_counterexample_score_and_tie :
    (exCluster2.findBestNode exReqs = 2 ∧
      Cluster.isCandidate exReqs exNodeA = true ∧
      exNodeA.config.node_id = 1 ∧ exNodeB.config.node_id = 2 ∧
      specOverallScore exNodeB < specOverallScore exNodeA) ∧
    (exClusterTie.findBestNode exReqs = 5 ∧
      Cluster.isCandidate exReqs (Node.fresh exCfg3) = true ∧
      (Node.fresh exCfg3).config.node_id = 3 ∧
      (Node.fresh exCfg3).lbScore = (Node.fresh exCfg5).lbScore) := by
  refine ⟨⟨?_, ?_, rfl, rfl, ?_⟩, ⟨?_, ?_, rfl, ?_⟩⟩ <;>
    norm_num [Cluster.findBestNode, Cluster.findBestNodeStep, Cluster.isCandidate,
      Node.isHealthy, Node.canAcceptTask, Node.lbScore, probeTask, Task.mkTask,
      specOverallScore, specNetworkHeadroom, exCluster2, exClusterTie, exNodeA, exNodeB,
      exCfg, exCfg2, exCfg5, exCfg3, Node.fresh, CPU_THRESHOLD, MEMORY_THRESHOLD,
      exReqs, exClusterCfg]

/-- C7 (amended): `Cluster::findBestNode` returns −1 exactly when no node is
both healthy and feasible; otherwise it returns the node id of a candidate
maximizing the score `1 − (cpu_usage + memory_usage)/2` — the first such
candidate in registration order (disk, network and the weighted 0.4/0.4/0.2
formula play no role). -/
theorem c7_findBestNode_characterization (c : Cluster) (reqs : TaskRequirements) :
    (c.findBestNode reqs = -1 ∧ ∀ n ∈ c.nodes, Cluster.isCandidate reqs n = false) ∨
    (∃ l₁ n l₂, c.nodes = l₁ ++ n :: l₂ ∧ Cluster.isCandidate reqs n = true ∧
      c.findBestNode reqs = n.config.node_id ∧
      (∀ m ∈ l₁, Cluster.isCandidate reqs m = true → m.lbScore < n.lbScore) ∧
      (∀ m ∈ l₂, Cluster.isCandidate reqs m = true → m.lbScore ≤ n.lbScore)) := by
  rcases findBestNode_foldl_spec reqs c.nodes (-1, -1) with ⟨heq, hall⟩ |
    ⟨l₁, n, l₂, hdec, hc, heq, -, h₁, h₂⟩
  · left
    refine ⟨by simp [Cluster.findBestNode, heq], ?_⟩
    intro n hn
    cases hx : Cluster.isCandidate reqs n
    · rfl
    · have hh : n.isHealthy = true := by
        simp only [Cluster.isCandidate, Bool.and_eq_true] at hx
        exact hx.1
      have hle : n.lbScore ≤ -1 := hall n hn hx
      exact absurd hle (not_le.mpr (lbScore_gt_neg_one n hh))
  · right
    exact ⟨l₁, n, l₂, hdec, hc, by simp [Cluster.findBestNode, heq], h₁, h₂⟩

/-- C7 witness: the characterization instantiated on the concrete two-node
cluster `exCluster2`. -/
theorem c7_witness :
    (exCluster2.findBestNode exReqs = -1 ∧
      ∀ n ∈ exCluster2.nodes, Cluster.isCandidate exReqs n = false) ∨
    (∃ l₁ n l₂, exCluster2.nodes = l₁ ++ n :: l₂ ∧
      Cluster.isCandidate exReqs n = true ∧
      exCluster2.findBestNode exReqs = n.config.node_id ∧
      (∀ m ∈ l₁, Cluster.isCandidate exReqs m = true → m.lbScore < n.lbScore) ∧
      (∀ m ∈ l₂, Cluster.isCandidate exReqs m = true → m.lbScore ≤ n.lbScore)) :=
  c7_findBestNode_characterization exCluster2 exReqs

end ClusterForge
